import Mathlib

/-!
Shallow embedding of the HTTP API route handlers of an Instagram-style
social-feed application (Next.js + Supabase), together with proofs of the
behavioural properties the handlers are documented to satisfy.

The database (tables `users`, `posts`, `likes`, `comments`, `follows`, the
derived view `post_stats`, and the `posts` storage bucket) is modelled as an
explicit state record `DB`.  Each route handler becomes a pure function from
the current database state and the request parameters to an HTTP-level result
(either an `ApiError` carrying the status code and error string, or the
success body) paired with the successor database state.  UUIDs are abstracted
as `Nat`; the externally verified Clerk subject identifier stays a `String`.
-/

/-- Row of the `users` table: internal id, unique Clerk subject id, display
name, creation time. -/
structure UserRow where
  id : Nat
  clerk_id : String
  name : String
  created_at : Nat
deriving Repr, DecidableEq

/-- Row of the `posts` table. -/
structure PostRow where
  id : Nat
  user_id : Nat
  image_url : String
  caption : Option String
  created_at : Nat
  updated_at : Nat
deriving Repr, DecidableEq

/-- Row of the `likes` table; the schema declares `(post_id, user_id)` unique. -/
structure LikeRow where
  id : Nat
  post_id : Nat
  user_id : Nat
deriving Repr, DecidableEq

/-- Row of the `comments` table. -/
structure CommentRow where
  id : Nat
  post_id : Nat
  user_id : Nat
  content : String
  created_at : Nat
deriving Repr, DecidableEq

/-- Row of the `follows` table; the schema declares `(follower_id, following_id)`
unique and checks `follower_id != following_id`. -/
structure FollowRow where
  id : Nat
  follower_id : Nat
  following_id : Nat
deriving Repr, DecidableEq

/-- The persistent state: the five base relations plus the `posts` storage
bucket (a list of stored object paths). -/
structure DB where
  users : List UserRow
  posts : List PostRow
  likes : List LikeRow
  comments : List CommentRow
  follows : List FollowRow
  storage : List String
deriving Repr, DecidableEq

/-- An error response: HTTP status code and the `error` field of the JSON body. -/
structure ApiError where
  status : Nat
  error : String
deriving Repr, DecidableEq

/-- A PostgREST error surfaced by the Supabase client; the handlers inspect
its `code` field (e.g. `"23505"`, unique violation). -/
structure DbError where
  code : String
deriving Repr, DecidableEq

/-- Models `supabase.from("users").select("id").eq("clerk_id", cid).single()`. -/
def findUserByClerkId (db : DB) (cid : String) : Option UserRow :=
  db.users.find? (fun u => u.clerk_id == cid)

/-- Models `supabase.from("posts").select(...).eq("id", pid).single()`. -/
def findPostById (db : DB) (pid : Nat) : Option PostRow :=
  db.posts.find? (fun p => p.id == pid)

/-- Number of rows of the `likes` table with the given `(post_id, user_id)` pair. -/
def likeCount (db : DB) (pid uid : Nat) : Nat :=
  (db.likes.filter (fun l => l.post_id == pid && l.user_id == uid)).length

/-- Models `supabase.from("likes").insert({post_id, user_id})`: the database
enforces the `(post_id, user_id)` unique constraint and reports a violation
with PostgreSQL error code 23505. -/
def insertLike (db : DB) (pid uid likeId : Nat) : Except DbError (LikeRow × DB) :=
  if db.likes.any (fun l => l.post_id == pid && l.user_id == uid) then
    .error ⟨"23505"⟩
  else
    let like : LikeRow := ⟨likeId, pid, uid⟩
    .ok (like, { db with likes := db.likes ++ [like] })

/-- Handler `POST /api/likes` (src/app/api/likes/route.ts): auth check, body
parse, requester lookup, post-existence check, insert with the 23505 →
409 "Already liked" mapping.  `newLikeId` abstracts the id the database
generates for the inserted row. -/
def likesPOST (db : DB) (clerkUserId : Option String) (post_id : Option Nat)
    (newLikeId : Nat) : Except ApiError LikeRow × DB :=
  match clerkUserId with
  | none => (.error ⟨401, "Unauthorized"⟩, db)
  | some cid =>
    match post_id with
    | none => (.error ⟨400, "post_id is required"⟩, db)
    | some pid =>
      match findUserByClerkId db cid with
      | none => (.error ⟨404, "User not found"⟩, db)
      | some currentUser =>
        match findPostById db pid with
        | none => (.error ⟨404, "Post not found"⟩, db)
        | some _post =>
          match insertLike db pid currentUser.id newLikeId with
          | .error likeError =>
            if likeError.code == "23505" then
              (.error ⟨409, "Already liked"⟩, db)
            else
              (.error ⟨500, "Failed to add like"⟩, db)
          | .ok (like, db1) => (.ok like, db1)

/-- Handler `DELETE /api/likes` (src/app/api/likes/route.ts): auth check, body
parse, requester lookup, then an unconditional delete of the likes rows
matching `(post_id, user_id)`; deleting zero rows is not an error. -/
def likesDELETE (db : DB) (clerkUserId : Option String) (post_id : Option Nat) :
    Except ApiError String × DB :=
  match clerkUserId with
  | none => (.error ⟨401, "Unauthorized"⟩, db)
  | some cid =>
    match post_id with
    | none => (.error ⟨400, "post_id is required"⟩, db)
    | some pid =>
      match findUserByClerkId db cid with
      | none => (.error ⟨404, "User not found"⟩, db)
      | some currentUser =>
        (.ok "Like removed",
         { db with likes :=
            db.likes.filter (fun l => !(l.post_id == pid && l.user_id == currentUser.id)) })

/-- Handler `POST /api/follows` (follows route): auth check, body parse,
requester lookup, self-follow rejection, target-existence check, duplicate
check, insert (with a 23505 backstop mapping to the same duplicate error).
`newFollowId` abstracts the database-generated row id. -/
def followsPOST (db : DB) (clerkUserId : Option String) (following_id : Option Nat)
    (newFollowId : Nat) : Except ApiError FollowRow × DB :=
  match clerkUserId with
  | none => (.error ⟨401, "Unauthorized"⟩, db)
  | some cid =>
    match following_id with
    | none => (.error ⟨400, "following_id is required"⟩, db)
    | some fid =>
      match findUserByClerkId db cid with
      | none => (.error ⟨404, "User not found"⟩, db)
      | some currentUser =>
        if currentUser.id == fid then
          (.error ⟨400, "Cannot follow yourself"⟩, db)
        else
          match db.users.find? (fun u => u.id == fid) with
          | none => (.error ⟨404, "Target user not found"⟩, db)
          | some _targetUser =>
            match db.follows.find? (fun f =>
                f.follower_id == currentUser.id && f.following_id == fid) with
            | some _existing => (.error ⟨400, "Already following this user"⟩, db)
            | none =>
              let follow : FollowRow := ⟨newFollowId, currentUser.id, fid⟩
              (.ok follow, { db with follows := db.follows ++ [follow] })

/-- Row of the derived read-only view `post_stats`: one row per post carrying
the denormalized like and comment counts (the view has no `updated_at`
column). -/
structure PostStatRow where
  post_id : Nat
  user_id : Nat
  image_url : String
  caption : Option String
  created_at : Nat
  likes_count : Nat
  comments_count : Nat
deriving Repr, DecidableEq

/-- The `post_stats` view recomputed from the base relations: each post with
the live count of its likes and comments. -/
def postStatsView (db : DB) : List PostStatRow :=
  db.posts.map (fun p =>
    ⟨p.id, p.user_id, p.image_url, p.caption, p.created_at,
     (db.likes.filter (fun l => l.post_id == p.id)).length,
     (db.comments.filter (fun c => c.post_id == p.id)).length⟩)

/-- Insert a stat row into a list that is already sorted by `created_at`
descending, keeping it sorted. -/
def insertByCreatedDesc (r : PostStatRow) : List PostStatRow → List PostStatRow
  | [] => [r]
  | s :: rest =>
    if s.created_at ≤ r.created_at then r :: s :: rest
    else s :: insertByCreatedDesc r rest

/-- Models `.order("created_at", { ascending: false })`: the database returns
the rows sorted by `created_at` descending. -/
def sortByCreatedDesc : List PostStatRow → List PostStatRow
  | [] => []
  | r :: rest => insertByCreatedDesc r (sortByCreatedDesc rest)

/-- The JSON shape `PostWithUser` produced by the post list and post detail
handlers. -/
structure PostWithUser where
  id : Nat
  user_id : Nat
  image_url : String
  caption : Option String
  created_at : Nat
  updated_at : Nat
  likes_count : Nat
  comments_count : Nat
  user : UserRow
  is_liked : Bool
deriving Repr, DecidableEq

/-- Response body of `GET /api/posts`. -/
structure PostsListResp where
  data : List PostWithUser
  has_more : Bool
  next_offset : Option Nat
deriving Repr, DecidableEq

/-- The result set of the list query before the range is applied: the
`post_stats` view, restricted to the requested owner when the `userId`
parameter is present, ordered by `created_at` descending. -/
def listedRows (db : DB) (userIdParam : Option Nat) : List PostStatRow :=
  sortByCreatedDesc (match userIdParam with
    | some uid => (postStatsView db).filter (fun r => r.user_id == uid)
    | none => postStatsView db)

/-- Handler `GET /api/posts` (posts route): auth check, query parameters
(`limit` default 10 capped at 50, `offset` default 0, optional `userId`
owner filter), requester lookup, a ranged ordered query over `post_stats`,
the per-row user join (with the `"Unknown"` fallback) and per-viewer
`is_liked` membership check, `has_more` true iff the page is exactly full,
and `next_offset` only when `has_more`. -/
def postsGET (db : DB) (clerkUserId : Option String) (limitParam offsetParam : Option Nat)
    (userIdParam : Option Nat) : Except ApiError PostsListResp :=
  match clerkUserId with
  | none => .error ⟨401, "Unauthorized"⟩
  | some cid =>
    let limit := min (limitParam.getD 10) 50
    let offset := offsetParam.getD 0
    match findUserByClerkId db cid with
    | none => .error ⟨404, "User not found"⟩
    | some currentUser =>
      let rows := listedRows db userIdParam
      let page := (rows.drop offset).take limit
      let formattedPosts := page.map (fun r =>
        { id := r.post_id
          user_id := r.user_id
          image_url := r.image_url
          caption := r.caption
          created_at := r.created_at
          updated_at := r.created_at
          likes_count := r.likes_count
          comments_count := r.comments_count
          user := (db.users.find? (fun u => u.id == r.user_id)).getD
            ⟨r.user_id, "", "Unknown", r.created_at⟩
          is_liked := db.likes.any (fun l =>
            l.user_id == currentUser.id && l.post_id == r.post_id) : PostWithUser })
      let hasMore := formattedPosts.length == limit
      .ok { data := formattedPosts
            has_more := hasMore
            next_offset := if hasMore then some (offset + limit) else none }

/-- Handler `GET /api/posts/[postId]` (post detail route): `post_stats` lookup,
`posts` base-table lookup (source of `updated_at`), author lookup, optional
viewer `is_liked` check; authentication is optional. -/
def postsIdGET (db : DB) (clerkUserId : Option String) (postIdParam : Option Nat) :
    Except ApiError PostWithUser :=
  match postIdParam with
  | none => .error ⟨400, "postId is required"⟩
  | some pid =>
    match (postStatsView db).find? (fun r => r.post_id == pid) with
    | none => .error ⟨404, "Post not found"⟩
    | some postStats =>
      match findPostById db pid with
      | none => .error ⟨404, "Post not found"⟩
      | some post =>
        match db.users.find? (fun u => u.id == post.user_id) with
        | none => .error ⟨404, "User not found"⟩
        | some user =>
          let isLiked := match clerkUserId with
            | none => false
            | some cid =>
              match findUserByClerkId db cid with
              | none => false
              | some currentUser =>
                db.likes.any (fun l =>
                  l.post_id == pid && l.user_id == currentUser.id)
          .ok { id := post.id
                user_id := post.user_id
                image_url := post.image_url
                caption := post.caption
                created_at := post.created_at
                updated_at := post.updated_at
                likes_count := postStats.likes_count
                comments_count := postStats.comments_count
                user := user
                is_liked := isLiked }

/-- Maximum accepted image size, `5 * 1024 * 1024` bytes. -/
def MAX_FILE_SIZE : Nat := 5 * 1024 * 1024

/-- The MIME-type allow-list for uploaded images. -/
def ALLOWED_MIME_TYPES : List String :=
  ["image/jpeg", "image/png", "image/webp", "image/gif"]

/-- Maximum accepted caption length after trimming. -/
def MAX_CAPTION_LENGTH : Nat := 2200

/-- The multipart `image` field: file name, byte size, MIME type. -/
structure FileUpload where
  name : String
  size : Nat
  mime : String
deriving Repr, DecidableEq

/-- Models JavaScript `String.prototype.trim`: strip whitespace characters
from both ends of the string. -/
def jsTrim (s : String) : String :=
  ⟨((s.data.dropWhile Char.isWhitespace).reverse.dropWhile Char.isWhitespace).reverse⟩

/-- Models `caption?.trim() || null`: trim the caption, turning a missing or
whitespace-only caption into `null`. -/
def normalizeCaption : Option String → Option String
  | none => none
  | some c => let t := jsTrim c; if t == "" then none else some t

/-- Check `captionText && captionText.length > MAX_CAPTION_LENGTH`. -/
def captionTooLong : Option String → Bool
  | none => false
  | some t => decide (MAX_CAPTION_LENGTH < t.length)

/-- Models `supabase.storage.from("posts").getPublicUrl(filePath)`. -/
def getPublicUrl (filePath : String) : String :=
  "https://example.supabase.co/storage/v1/object/public/posts/" ++ filePath

/-- Handler `POST /api/posts` (posts route): auth check, image presence, size
and MIME validation, caption validation, requester lookup, storage upload
under `clerkUserId/fileName`, public-URL derivation, row insert, and on
insert failure a best-effort compensating delete of the uploaded object
whose own failure is swallowed.  `fileName` abstracts the generated file
name, `newPostId`/`now` the database-generated id and timestamps, and the
three `Fails` flags inject the outcome of the storage upload, the row
insert, and the compensating delete. -/
def postsPOST (db : DB) (clerkUserId : Option String) (image : Option FileUpload)
    (caption : Option String) (fileName : String) (newPostId now : Nat)
    (uploadFails insertFails compensateDeleteFails : Bool) :
    Except ApiError PostRow × DB :=
  match clerkUserId with
  | none => (.error ⟨401, "Unauthorized"⟩, db)
  | some cid =>
    match image with
    | none => (.error ⟨400, "Image is required"⟩, db)
    | some img =>
      if MAX_FILE_SIZE < img.size then
        (.error ⟨400, "File size exceeds 5MB limit"⟩, db)
      else if !(ALLOWED_MIME_TYPES.contains img.mime) then
        (.error ⟨400, "Invalid file type. Only JPEG, PNG, WebP, and GIF are allowed"⟩, db)
      else
        let captionText := normalizeCaption caption
        if captionTooLong captionText then
          (.error ⟨400, "Caption exceeds 2200 characters"⟩, db)
        else
          match findUserByClerkId db cid with
          | none => (.error ⟨404, "User not found"⟩, db)
          | some currentUser =>
            let filePath := cid ++ "/" ++ fileName
            if uploadFails then
              (.error ⟨500, "Failed to upload image"⟩, db)
            else
              let dbUp := { db with storage := db.storage ++ [filePath] }
              let imageUrl := getPublicUrl filePath
              if insertFails then
                let dbComp :=
                  if compensateDeleteFails then dbUp
                  else { dbUp with storage := dbUp.storage.filter (fun p => p != filePath) }
                (.error ⟨500, "Failed to create post"⟩, dbComp)
              else
                let post : PostRow :=
                  ⟨newPostId, currentUser.id, imageUrl, captionText, now, now⟩
                (.ok post, { dbUp with posts := dbUp.posts ++ [post] })

/-- Models the file-path extraction in `DELETE /api/posts/[postId]`: strip a
query string, then capture everything after the first occurrence of
`"/posts/"` in the image URL (the regex match of `\/posts\/(.+)$` followed by
`.split("?")[0]`); `none` when the pattern does not match. -/
def extractFilePath (imageUrl : String) : Option String :=
  let noQuery := (imageUrl.splitOn "?").headD imageUrl
  match noQuery.splitOn "/posts/" with
  | _ :: rest :: more => some (String.intercalate "/posts/" (rest :: more))
  | _ => none

/-- Handler `DELETE /api/posts/[postId]` (post detail route): auth check,
requester lookup, post lookup (404), ownership check (403 for non-owners,
before any deletion), best-effort storage delete of the extracted file path,
then row delete with cascade to the post's likes and comments. -/
def postsIdDELETE (db : DB) (clerkUserId : Option String) (postIdParam : Option Nat) :
    Except ApiError String × DB :=
  match clerkUserId with
  | none => (.error ⟨401, "Unauthorized"⟩, db)
  | some cid =>
    match postIdParam with
    | none => (.error ⟨400, "postId is required"⟩, db)
    | some pid =>
      match findUserByClerkId db cid with
      | none => (.error ⟨404, "User not found"⟩, db)
      | some currentUser =>
        match findPostById db pid with
        | none => (.error ⟨404, "Post not found"⟩, db)
        | some post =>
          if post.user_id != currentUser.id then
            (.error ⟨403, "Forbidden: You can only delete your own posts"⟩, db)
          else
            let dbStor := match extractFilePath post.image_url with
              | some fp => { db with storage := db.storage.filter (fun p => p != fp) }
              | none => db
            (.ok "Post deleted successfully",
             { dbStor with
                posts := dbStor.posts.filter (fun p => !(p.id == pid))
                likes := dbStor.likes.filter (fun l => !(l.post_id == pid))
                comments := dbStor.comments.filter (fun c => !(c.post_id == pid)) })

/-- Handler `POST /api/comments` (comments route): auth check, `post_id` and
non-empty-after-trim `content` validation, requester lookup, post-existence
check, then insert of the trimmed content.  `newCommentId`/`now` abstract
the database-generated id and timestamp. -/
def commentsPOST (db : DB) (clerkUserId : Option String) (post_id : Option Nat)
    (content : Option String) (newCommentId now : Nat) :
    Except ApiError CommentRow × DB :=
  match clerkUserId with
  | none => (.error ⟨401, "Unauthorized"⟩, db)
  | some cid =>
    match post_id with
    | none => (.error ⟨400, "post_id is required"⟩, db)
    | some pid =>
      match content with
      | none => (.error ⟨400, "content is required and cannot be empty"⟩, db)
      | some s =>
        if jsTrim s == "" then
          (.error ⟨400, "content is required and cannot be empty"⟩, db)
        else
          match findUserByClerkId db cid with
          | none => (.error ⟨404, "User not found"⟩, db)
          | some currentUser =>
            match findPostById db pid with
            | none => (.error ⟨404, "Post not found"⟩, db)
            | some _post =>
              let comment : CommentRow := ⟨newCommentId, pid, currentUser.id, jsTrim s, now⟩
              (.ok comment, { db with comments := db.comments ++ [comment] })

/-- Handler `DELETE /api/comments` (comments route): auth check, `comment_id`
parse, requester lookup, comment lookup (404), ownership check (403 for
non-authors, before any deletion), then delete by comment id. -/
def commentsDELETE (db : DB) (clerkUserId : Option String) (comment_id : Option Nat) :
    Except ApiError String × DB :=
  match clerkUserId with
  | none => (.error ⟨401, "Unauthorized"⟩, db)
  | some cid =>
    match comment_id with
    | none => (.error ⟨400, "comment_id is required"⟩, db)
    | some cmid =>
      match findUserByClerkId db cid with
      | none => (.error ⟨404, "User not found"⟩, db)
      | some currentUser =>
        match db.comments.find? (fun c => c.id == cmid) with
        | none => (.error ⟨404, "Comment not found"⟩, db)
        | some comment =>
          if comment.user_id != currentUser.id then
            (.error ⟨403, "Forbidden: You can only delete your own comments"⟩, db)
          else
            (.ok "Comment deleted",
             { db with comments := db.comments.filter (fun c => !(c.id == cmid)) })

/-- Abstract pager over an already ordered list `l` of post ids: fetch the
page of `P` ids starting at `off`, and continue at `off + P` while the page
comes back exactly full.  `fuel` bounds the recursion; it is irrelevant as
soon as it exceeds the number of fetches the loop performs. -/
def collectPages (l : List Nat) (P : Nat) : Nat → Nat → List (List Nat)
  | 0, _ => []
  | fuel + 1, off =>
    let page := (l.drop off).take P
    if page.length = P then page :: collectPages l P fuel (off + P)
    else [page]

/-- The client feed controller's pagination loop: call `GET /api/posts` with
page size `P` at the current offset, record the returned ids, and while the
response says `has_more`, fetch again at `offset + P`.  An error response
ends the loop. -/
def fetchAllPages (db : DB) (cid : String) (P : Nat) : Nat → Nat → List (List Nat)
  | 0, _ => []
  | fuel + 1, off =>
    match postsGET db (some cid) (some P) (some off) none with
    | .error _ => []
    | .ok r =>
      let ids := r.data.map (fun p => p.id)
      if r.has_more then ids :: fetchAllPages db cid P fuel (off + P)
      else [ids]

/-- Handler `DELETE /api/follows` (follows route): auth check, body parse,
requester lookup, lookup of the follow row scoped to
`(follower_id = requester, following_id)` (404 when absent), a redundant
follower check, then delete by row id. -/
def followsDELETE (db : DB) (clerkUserId : Option String) (following_id : Option Nat) :
    Except ApiError String × DB :=
  match clerkUserId with
  | none => (.error ⟨401, "Unauthorized"⟩, db)
  | some cid =>
    match following_id with
    | none => (.error ⟨400, "following_id is required"⟩, db)
    | some fid =>
      match findUserByClerkId db cid with
      | none => (.error ⟨404, "User not found"⟩, db)
      | some currentUser =>
        match db.follows.find? (fun f =>
            f.follower_id == currentUser.id && f.following_id == fid) with
        | none => (.error ⟨404, "Follow relationship not found"⟩, db)
        | some follow =>
          if follow.follower_id != currentUser.id then
            (.error ⟨403, "Forbidden: You can only unfollow users you are following"⟩, db)
          else
            (.ok "Unfollowed successfully",
             { db with follows := db.follows.filter (fun f => !(f.id == follow.id)) })

/-!  Concrete fixtures used by the witness theorems below: two users, three
posts (one with `updated_at` different from `created_at`), one like, one
comment, one follow, one stored object. -/

/-- Fixture user 1 (Clerk subject `"c1"`). -/
def wUser1 : UserRow := ⟨1, "c1", "Alice", 0⟩

/-- Fixture user 2 (Clerk subject `"c2"`). -/
def wUser2 : UserRow := ⟨2, "c2", "Bob", 0⟩

/-- Fixture post owned by user 1 with `updated_at ≠ created_at`. -/
def wPost1 : PostRow :=
  ⟨10, 1, "https://example.supabase.co/storage/v1/object/public/posts/c1/a.jpg", none, 5, 7⟩

/-- Fixture post owned by user 2. -/
def wPost2 : PostRow := ⟨11, 2, "u2", some "hey", 3, 3⟩

/-- Fixture post owned by user 1. -/
def wPost3 : PostRow := ⟨12, 1, "u3", none, 9, 9⟩

/-- Fixture comment authored by user 1. -/
def wComment : CommentRow := ⟨200, 10, 1, "hi", 4⟩

/-- Fixture database state. -/
def wDB : DB :=
  ⟨[wUser1, wUser2], [wPost1, wPost2, wPost3], [⟨100, 10, 1⟩], [wComment],
   [⟨300, 1, 2⟩], ["c1/a.jpg"]⟩

/-- Fixture image file accepted by the create-post validation. -/
def wImageOk : FileUpload := ⟨"a.jpg", 10, "image/jpeg"⟩

/-- Fixture caption of 2201 non-whitespace characters. -/
def wBigCaption : String := String.mk (List.replicate 2201 'x')

/-- Fixture list response: page of size 1 over the fixture database. -/
def wListResp1 : PostsListResp :=
  ⟨[⟨12, 1, "u3", none, 9, 9, 0, 0, wUser1, false⟩], true, some 1⟩

/-- Fixture detail response for post 10 with an unauthenticated viewer. -/
def wDetailOut : PostWithUser :=
  ⟨10, 1, "https://example.supabase.co/storage/v1/object/public/posts/c1/a.jpg",
   none, 5, 7, 1, 1, wUser1, false⟩

/-- Fixture list response: page of size 2 over the fixture database as seen
by user 1. -/
def wListResp2 : PostsListResp :=
  ⟨[⟨12, 1, "u3", none, 9, 9, 0, 0, wUser1, false⟩,
    ⟨10, 1, "https://example.supabase.co/storage/v1/object/public/posts/c1/a.jpg",
     none, 5, 5, 1, 1, wUser1, true⟩], true, some 2⟩

/-- C8: for every authenticated user `u`, `POST /follows` with `following_id`
equal to `u`'s own internal user id returns HTTP 400 with error
"Cannot follow yourself" and inserts no Follow row (the state is returned
unchanged). -/
theorem followsPOST_self_follow_rejected (db : DB) (cid : String) (u : UserRow)
    (newFollowId : Nat) (hu : findUserByClerkId db cid = some u) :
    followsPOST db (some cid) (some u.id) newFollowId =
      (.error ⟨400, "Cannot follow yourself"⟩, db) := by
  simp [followsPOST, hu]

/-- Witness for C8 at the fixture database: user 1 attempting to follow
themselves is rejected with 400 and the state is unchanged. -/
theorem followsPOST_self_follow_rejected_witness :
    findUserByClerkId wDB "c1" = some wUser1 ∧
    followsPOST wDB (some "c1") (some wUser1.id) 5 =
      (.error ⟨400, "Cannot follow yourself"⟩, wDB) :=
  ⟨rfl, followsPOST_self_follow_rejected wDB "c1" wUser1 5 rfl⟩

/-- C7: for every authenticated user and post id, `DELETE /likes` returns
success with message "Like removed" whether or not a matching Like row
exists, afterwards no Like row for `(post_id, requester)` remains, and the
operation is idempotent: a second identical call returns the same response
and the same state. -/
theorem likesDELETE_idempotent (db : DB) (cid : String) (u : UserRow) (pid : Nat)
    (hu : findUserByClerkId db cid = some u) :
    (likesDELETE db (some cid) (some pid)).1 = .ok "Like removed" ∧
    likeCount (likesDELETE db (some cid) (some pid)).2 pid u.id = 0 ∧
    likesDELETE (likesDELETE db (some cid) (some pid)).2 (some cid) (some pid) =
      likesDELETE db (some cid) (some pid) := by
  have hstep : likesDELETE db (some cid) (some pid) =
      (.ok "Like removed",
       { db with likes :=
          db.likes.filter (fun l => !(l.post_id == pid && l.user_id == u.id)) }) := by
    simp [likesDELETE, hu]
  have hu' : db.users.find? (fun x => x.clerk_id == cid) = some u := hu
  refine ⟨by rw [hstep], ?_, ?_⟩
  · rw [hstep]
    simp [likeCount, List.filter_filter, Bool.and_not_self]
  · rw [hstep]
    simp [likesDELETE, findUserByClerkId, hu', List.filter_filter, Bool.and_self]

/-- Witness for C7: removing user 1's like of post 10 in the fixture database
succeeds, leaves no like row, and a second removal is identical. -/
theorem likesDELETE_idempotent_witness :
    findUserByClerkId wDB "c1" = some wUser1 ∧
    ((likesDELETE wDB (some "c1") (some 10)).1 = .ok "Like removed" ∧
     likeCount (likesDELETE wDB (some "c1") (some 10)).2 10 wUser1.id = 0 ∧
     likesDELETE (likesDELETE wDB (some "c1") (some 10)).2 (some "c1") (some 10) =
       likesDELETE wDB (some "c1") (some 10)) :=
  ⟨rfl, likesDELETE_idempotent wDB "c1" wUser1 10 rfl⟩

/-- C4: deletion is owner-only.  With an authenticated requester `u`: a
`DELETE /posts/[postId]` on a post `u` does not own returns 403 Forbidden
with the whole state (rows and storage) unchanged, and a success response
implies `u` is the post's owner; likewise `DELETE /comments` on a comment
authored by someone else returns 403 with the state unchanged, and success
implies authorship. -/
theorem delete_requires_ownership (db : DB) (cid : String) (u : UserRow)
    (hu : findUserByClerkId db cid = some u) :
    (∀ pid post, findPostById db pid = some post → post.user_id ≠ u.id →
      postsIdDELETE db (some cid) (some pid) =
        (.error ⟨403, "Forbidden: You can only delete your own posts"⟩, db)) ∧
    (∀ pid msg, (postsIdDELETE db (some cid) (some pid)).1 = .ok msg →
      ∃ post, findPostById db pid = some post ∧ post.user_id = u.id) ∧
    (∀ cmid c, db.comments.find? (fun x => x.id == cmid) = some c → c.user_id ≠ u.id →
      commentsDELETE db (some cid) (some cmid) =
        (.error ⟨403, "Forbidden: You can only delete your own comments"⟩, db)) ∧
    (∀ cmid msg, (commentsDELETE db (some cid) (some cmid)).1 = .ok msg →
      ∃ c, db.comments.find? (fun x => x.id == cmid) = some c ∧ c.user_id = u.id) := by
  refine ⟨?_, ?_, ?_, ?_⟩
  · intro pid post hp hne
    have hb : (post.user_id != u.id) = true := bne_iff_ne.2 hne
    simp [postsIdDELETE, hu, hp, hb]
  · intro pid msg h
    rcases hp : findPostById db pid with _ | post
    · simp [postsIdDELETE, hu, hp] at h
    · by_cases hos : post.user_id = u.id
      · exact ⟨post, by simp [hp], hos⟩
      · have hb : (post.user_id != u.id) = true := bne_iff_ne.2 hos
        simp [postsIdDELETE, hu, hp, hb] at h
  · intro cmid c hc hne
    have hb : (c.user_id != u.id) = true := bne_iff_ne.2 hne
    simp [commentsDELETE, hu, hc, hb]
  · intro cmid msg h
    rcases hc : db.comments.find? (fun x => x.id == cmid) with _ | c
    · simp [commentsDELETE, hu, hc] at h
    · by_cases hos : c.user_id = u.id
      · exact ⟨c, by simp [hc], hos⟩
      · have hb : (c.user_id != u.id) = true := bne_iff_ne.2 hos
        simp [commentsDELETE, hu, hc, hb] at h

/-- Witness for C4: user 2 attempting to delete post 10 (owned by user 1) and
comment 200 (authored by user 1) gets 403 both times, with the fixture
state unchanged. -/
theorem delete_requires_ownership_witness :
    findUserByClerkId wDB "c2" = some wUser2 ∧
    findPostById wDB 10 = some wPost1 ∧ wPost1.user_id ≠ wUser2.id ∧
    postsIdDELETE wDB (some "c2") (some 10) =
      (.error ⟨403, "Forbidden: You can only delete your own posts"⟩, wDB) ∧
    commentsDELETE wDB (some "c2") (some 200) =
      (.error ⟨403, "Forbidden: You can only delete your own comments"⟩, wDB) :=
  ⟨rfl, rfl, by decide,
   (delete_requires_ownership wDB "c2" wUser2 rfl).1 10 wPost1 rfl (by decide),
   (delete_requires_ownership wDB "c2" wUser2 rfl).2.2.1 200 wComment rfl (by decide)⟩

/-- C9: in every `GET /posts` list response each returned post's `updated_at`
equals its `created_at` (the `post_stats` view the list reads from has no
`updated_at` column, so the handler substitutes `created_at`), whereas
`GET /posts/[postId]` reads the `posts` base table and returns the stored
`updated_at`. -/
theorem updated_at_list_vs_detail (db : DB) (cid : String)
    (limitParam offsetParam userIdParam : Option Nat) (viewer : Option String) :
    (∀ r p, postsGET db (some cid) limitParam offsetParam userIdParam = .ok r →
      p ∈ r.data → p.updated_at = p.created_at) ∧
    (∀ pid post out, findPostById db pid = some post →
      postsIdGET db viewer (some pid) = .ok out →
      out.updated_at = post.updated_at ∧ out.created_at = post.created_at) := by
  constructor
  · intro r p h hp
    rcases hu : findUserByClerkId db cid with _ | cu
    · simp [postsGET, hu] at h
    · simp [postsGET, hu] at h
      subst h
      rcases List.mem_map.1 (List.mem_of_mem_drop (List.mem_of_mem_take hp)) with ⟨a, _, rfl⟩
      rfl
  · intro pid post out hpost h
    rcases hsv : (postStatsView db).find? (fun r => r.post_id == pid) with _ | st
    · simp [postsIdGET, hsv] at h
    · rcases huser : db.users.find? (fun x => x.id == post.user_id) with _ | usr
      · simp [postsIdGET, hsv, hpost, huser] at h
      · simp [postsIdGET, hsv, hpost, huser] at h
        subst h
        exact ⟨rfl, rfl⟩

/-- Witness for C9: the fixture post 10 has stored `updated_at = 7` and
`created_at = 5`; the list response reports both as 9 for the newest post
(equal by construction), while the detail response reports the stored 7. -/
theorem updated_at_list_vs_detail_witness :
    postsGET wDB (some "c1") (some 1) none none = .ok wListResp1 ∧
    findPostById wDB 10 = some wPost1 ∧
    postsIdGET wDB none (some 10) = .ok wDetailOut ∧
    (⟨12, 1, "u3", none, 9, 9, 0, 0, wUser1, false⟩ : PostWithUser).updated_at =
      (⟨12, 1, "u3", none, 9, 9, 0, 0, wUser1, false⟩ : PostWithUser).created_at ∧
    wDetailOut.updated_at = wPost1.updated_at ∧
    wDetailOut.created_at = wPost1.created_at :=
  ⟨rfl, rfl, rfl,
   (updated_at_list_vs_detail wDB "c1" (some 1) none none none).1 wListResp1
     ⟨12, 1, "u3", none, 9, 9, 0, 0, wUser1, false⟩ rfl (by decide),
   ((updated_at_list_vs_detail wDB "c1" (some 1) none none none).2 10 wPost1 wDetailOut
     rfl rfl).1,
   ((updated_at_list_vs_detail wDB "c1" (some 1) none none none).2 10 wPost1 wDetailOut
     rfl rfl).2⟩

/-- C10: when the verified subject identifier has no matching `users` row,
every handler that resolves the requester — posts list and create (with an
otherwise valid payload), likes add and remove, comments create and delete,
follows add and remove — returns HTTP 404 with error "User not found" and
leaves the state (in particular the `users` table) unchanged: no handler
creates the missing user row. -/
theorem requester_missing_404 (db : DB) (cid : String)
    (hu : findUserByClerkId db cid = none) :
    (∀ limitParam offsetParam userIdParam,
      postsGET db (some cid) limitParam offsetParam userIdParam =
        .error ⟨404, "User not found"⟩) ∧
    (∀ img caption fileName newPostId now uF iF cF, img.size ≤ MAX_FILE_SIZE →
      ALLOWED_MIME_TYPES.contains img.mime = true →
      captionTooLong (normalizeCaption caption) = false →
      postsPOST db (some cid) (some img) caption fileName newPostId now uF iF cF =
        (.error ⟨404, "User not found"⟩, db)) ∧
    (∀ pid newLikeId, likesPOST db (some cid) (some pid) newLikeId =
      (.error ⟨404, "User not found"⟩, db)) ∧
    (∀ pid, likesDELETE db (some cid) (some pid) =
      (.error ⟨404, "User not found"⟩, db)) ∧
    (∀ pid s newCommentId now, (jsTrim s == "") = false →
      commentsPOST db (some cid) (some pid) (some s) newCommentId now =
        (.error ⟨404, "User not found"⟩, db)) ∧
    (∀ cmid, commentsDELETE db (some cid) (some cmid) =
      (.error ⟨404, "User not found"⟩, db)) ∧
    (∀ fid newFollowId, followsPOST db (some cid) (some fid) newFollowId =
      (.error ⟨404, "User not found"⟩, db)) ∧
    (∀ fid, followsDELETE db (some cid) (some fid) =
      (.error ⟨404, "User not found"⟩, db)) := by
  refine ⟨?_, ?_, ?_, ?_, ?_, ?_, ?_, ?_⟩
  · intro limitParam offsetParam userIdParam
    simp [postsGET, hu]
  · intro img caption fileName newPostId now uF iF cF hsize hmime hcap
    have hmem : img.mime ∈ ALLOWED_MIME_TYPES := by simpa using hmime
    simp [postsPOST, hu, Nat.not_lt.2 hsize, hmem, hcap]
  · intro pid newLikeId
    simp [likesPOST, hu]
  · intro pid
    simp [likesDELETE, hu]
  · intro pid s newCommentId now hs
    simp [commentsPOST, hu, hs]
  · intro cmid
    simp [commentsDELETE, hu]
  · intro fid newFollowId
    simp [followsPOST, hu]
  · intro fid
    simp [followsDELETE, hu]

/-- Witness for C10: subject `"c9"` has no user row in the fixture database;
the eight handlers all answer 404 "User not found" and leave the state
unchanged. -/
theorem requester_missing_404_witness :
    findUserByClerkId wDB "c9" = none ∧
    postsGET wDB (some "c9") none none none = .error ⟨404, "User not found"⟩ ∧
    postsPOST wDB (some "c9") (some wImageOk) none "f.jpg" 13 20 false false false =
      (.error ⟨404, "User not found"⟩, wDB) ∧
    likesPOST wDB (some "c9") (some 10) 101 = (.error ⟨404, "User not found"⟩, wDB) ∧
    likesDELETE wDB (some "c9") (some 10) = (.error ⟨404, "User not found"⟩, wDB) ∧
    commentsPOST wDB (some "c9") (some 10) (some "hey") 201 20 =
      (.error ⟨404, "User not found"⟩, wDB) ∧
    commentsDELETE wDB (some "c9") (some 200) = (.error ⟨404, "User not found"⟩, wDB) ∧
    followsPOST wDB (some "c9") (some 1) 301 = (.error ⟨404, "User not found"⟩, wDB) ∧
    followsDELETE wDB (some "c9") (some 2) = (.error ⟨404, "User not found"⟩, wDB) :=
  ⟨rfl,
   (requester_missing_404 wDB "c9" rfl).1 none none none,
   (requester_missing_404 wDB "c9" rfl).2.1 wImageOk none "f.jpg" 13 20 false false false
     (by decide) (by decide) (by decide),
   (requester_missing_404 wDB "c9" rfl).2.2.1 10 101,
   (requester_missing_404 wDB "c9" rfl).2.2.2.1 10,
   (requester_missing_404 wDB "c9" rfl).2.2.2.2.1 10 "hey" 201 20 (by decide),
   (requester_missing_404 wDB "c9" rfl).2.2.2.2.2.1 200,
   (requester_missing_404 wDB "c9" rfl).2.2.2.2.2.2.1 1 301,
   (requester_missing_404 wDB "c9" rfl).2.2.2.2.2.2.2 2⟩

/-- C1: for an authenticated user `u` and an existing post `pid`, when the
likes table already holds exactly one `(pid, u)` row, `POST /likes` maps
the database unique-violation (code 23505) to HTTP 409 "Already liked"
(not the generic 500) and leaves the table with exactly that one row;
when no `(pid, u)` row exists, the insert succeeds, adds exactly one row,
and the table then holds exactly one `(pid, u)` row. -/
theorem likesPOST_duplicate_409_first_ok (db : DB) (cid : String) (u : UserRow)
    (pid : Nat) (post : PostRow) (newLikeId : Nat)
    (hu : findUserByClerkId db cid = some u)
    (hp : findPostById db pid = some post) :
    (likeCount db pid u.id = 1 →
      likesPOST db (some cid) (some pid) newLikeId =
        (.error ⟨409, "Already liked"⟩, db) ∧
      likeCount (likesPOST db (some cid) (some pid) newLikeId).2 pid u.id = 1) ∧
    (likeCount db pid u.id = 0 →
      likesPOST db (some cid) (some pid) newLikeId =
        (.ok ⟨newLikeId, pid, u.id⟩,
         { db with likes := db.likes ++ [⟨newLikeId, pid, u.id⟩] }) ∧
      likeCount (likesPOST db (some cid) (some pid) newLikeId).2 pid u.id = 1) := by
  constructor
  · intro hcount
    have hany : db.likes.any (fun l => l.post_id == pid && l.user_id == u.id) = true := by
      have hpos : 0 <
          (db.likes.filter (fun l => l.post_id == pid && l.user_id == u.id)).length := by
        rw [likeCount] at hcount
        omega
      have hne : db.likes.filter (fun l => l.post_id == pid && l.user_id == u.id) ≠ [] :=
        List.length_pos.1 hpos
      rcases List.exists_mem_of_ne_nil _ hne with ⟨x, hx⟩
      exact List.any_eq_true.2 ⟨x, (List.mem_filter.1 hx).1, (List.mem_filter.1 hx).2⟩
    have hres : likesPOST db (some cid) (some pid) newLikeId =
        (.error ⟨409, "Already liked"⟩, db) := by
      simp [likesPOST, hu, hp, insertLike, hany]
    exact ⟨hres, by rw [hres]; exact hcount⟩
  · intro hcount
    have hnil : db.likes.filter (fun l => l.post_id == pid && l.user_id == u.id) = [] := by
      rw [likeCount] at hcount
      exact List.length_eq_zero.1 hcount
    have hany : db.likes.any (fun l => l.post_id == pid && l.user_id == u.id) = false := by
      rw [List.any_eq_false]
      intro x hx hpx
      have hmem : x ∈ db.likes.filter (fun l => l.post_id == pid && l.user_id == u.id) :=
        List.mem_filter.2 ⟨hx, hpx⟩
      rw [hnil] at hmem
      exact absurd hmem (List.not_mem_nil x)
    have hres : likesPOST db (some cid) (some pid) newLikeId =
        (.ok ⟨newLikeId, pid, u.id⟩,
         { db with likes := db.likes ++ [⟨newLikeId, pid, u.id⟩] }) := by
      simp [likesPOST, hu, hp, insertLike, hany]
    refine ⟨hres, ?_⟩
    rw [hres]
    simp [likeCount, List.filter_append, hnil]

/-- Witness for C1: in the fixture database user 1 already likes post 10 and
gets 409 with the state unchanged, while user 2 likes it for the first
time and gets a successful insert of exactly one row. -/
theorem likesPOST_duplicate_409_first_ok_witness :
    findUserByClerkId wDB "c1" = some wUser1 ∧ findPostById wDB 10 = some wPost1 ∧
    likeCount wDB 10 wUser1.id = 1 ∧
    likesPOST wDB (some "c1") (some 10) 101 = (.error ⟨409, "Already liked"⟩, wDB) ∧
    likeCount (likesPOST wDB (some "c1") (some 10) 101).2 10 wUser1.id = 1 ∧
    findUserByClerkId wDB "c2" = some wUser2 ∧ likeCount wDB 10 wUser2.id = 0 ∧
    likesPOST wDB (some "c2") (some 10) 101 =
      (.ok ⟨101, 10, wUser2.id⟩,
       { wDB with likes := wDB.likes ++ [⟨101, 10, wUser2.id⟩] }) ∧
    likeCount (likesPOST wDB (some "c2") (some 10) 101).2 10 wUser2.id = 1 :=
  ⟨rfl, rfl, by decide,
   ((likesPOST_duplicate_409_first_ok wDB "c1" wUser1 10 wPost1 101 rfl rfl).1
     (by decide)).1,
   ((likesPOST_duplicate_409_first_ok wDB "c1" wUser1 10 wPost1 101 rfl rfl).1
     (by decide)).2,
   rfl, by decide,
   ((likesPOST_duplicate_409_first_ok wDB "c2" wUser2 10 wPost1 101 rfl rfl).2
     (by decide)).1,
   ((likesPOST_duplicate_409_first_ok wDB "c2" wUser2 10 wPost1 101 rfl rfl).2
     (by decide)).2⟩

/-- C5: `POST /posts` returns HTTP 400 and performs neither a storage upload
nor a posts-row insert (the state is returned unchanged) whenever the image
exceeds 5MB, or its MIME type is outside the jpeg/png/webp/gif allow-list,
or the caption after trimming exceeds 2200 characters; the oversize case
reports "File size exceeds 5MB limit", the MIME case "Invalid file type.
Only JPEG, PNG, WebP, and GIF are allowed", and the caption case "Caption
exceeds 2200 characters". -/
theorem postsPOST_validation_400 (db : DB) (cid : String) (img : FileUpload)
    (caption : Option String) (fileName : String) (newPostId now : Nat)
    (uF iF cF : Bool)
    (hbad : MAX_FILE_SIZE < img.size ∨ ALLOWED_MIME_TYPES.contains img.mime = false ∨
      captionTooLong (normalizeCaption caption) = true) :
    (∃ msg, postsPOST db (some cid) (some img) caption fileName newPostId now uF iF cF =
      (.error ⟨400, msg⟩, db)) ∧
    (MAX_FILE_SIZE < img.size →
      postsPOST db (some cid) (some img) caption fileName newPostId now uF iF cF =
        (.error ⟨400, "File size exceeds 5MB limit"⟩, db)) ∧
    (img.size ≤ MAX_FILE_SIZE → ALLOWED_MIME_TYPES.contains img.mime = false →
      postsPOST db (some cid) (some img) caption fileName newPostId now uF iF cF =
        (.error ⟨400, "Invalid file type. Only JPEG, PNG, WebP, and GIF are allowed"⟩, db)) ∧
    (img.size ≤ MAX_FILE_SIZE → ALLOWED_MIME_TYPES.contains img.mime = true →
      captionTooLong (normalizeCaption caption) = true →
      postsPOST db (some cid) (some img) caption fileName newPostId now uF iF cF =
        (.error ⟨400, "Caption exceeds 2200 characters"⟩, db)) := by
  have h1 : MAX_FILE_SIZE < img.size →
      postsPOST db (some cid) (some img) caption fileName newPostId now uF iF cF =
        (.error ⟨400, "File size exceeds 5MB limit"⟩, db) := by
    intro hlt
    simp [postsPOST, hlt]
  have h2 : img.size ≤ MAX_FILE_SIZE → ALLOWED_MIME_TYPES.contains img.mime = false →
      postsPOST db (some cid) (some img) caption fileName newPostId now uF iF cF =
        (.error ⟨400, "Invalid file type. Only JPEG, PNG, WebP, and GIF are allowed"⟩, db) := by
    intro hle hmime
    have hnm : ¬ img.mime ∈ ALLOWED_MIME_TYPES := by simpa using hmime
    simp [postsPOST, Nat.not_lt.2 hle, hmime, hnm]
  have h3 : img.size ≤ MAX_FILE_SIZE → ALLOWED_MIME_TYPES.contains img.mime = true →
      captionTooLong (normalizeCaption caption) = true →
      postsPOST db (some cid) (some img) caption fileName newPostId now uF iF cF =
        (.error ⟨400, "Caption exceeds 2200 characters"⟩, db) := by
    intro hle hmime hcap
    have hmem : img.mime ∈ ALLOWED_MIME_TYPES := by simpa using hmime
    simp [postsPOST, Nat.not_lt.2 hle, hmem, hcap]
  refine ⟨?_, h1, h2, h3⟩
  by_cases hlt : MAX_FILE_SIZE < img.size
  · exact ⟨_, h1 hlt⟩
  · have hle : img.size ≤ MAX_FILE_SIZE := Nat.not_lt.1 hlt
    by_cases hmime : ALLOWED_MIME_TYPES.contains img.mime = true
    · rcases hbad with h | h | h
      · exact absurd h hlt
      · rw [hmime] at h
        exact absurd h (by decide)
      · exact ⟨_, h3 hle hmime h⟩
    · exact ⟨_, h2 hle (Bool.eq_false_iff.2 hmime)⟩

/-- The whitespace strip leaves a replicate of a non-whitespace character
unchanged. -/
theorem dropWhile_ws_replicate_x (n : Nat) :
    List.dropWhile Char.isWhitespace (List.replicate n 'x') = List.replicate n 'x' := by
  cases n with
  | zero => rfl
  | succ m =>
    rw [List.replicate_succ, List.dropWhile_cons,
        if_neg (by decide : ¬ (Char.isWhitespace 'x' = true))]

/-- Trimming a string of replicated non-whitespace characters is the
identity. -/
theorem jsTrim_replicate_x (n : Nat) :
    jsTrim (String.mk (List.replicate n 'x')) = String.mk (List.replicate n 'x') := by
  unfold jsTrim
  rw [dropWhile_ws_replicate_x, List.reverse_replicate, dropWhile_ws_replicate_x,
      List.reverse_replicate]

/-- The 2201-character fixture caption fails the caption-length validation. -/
theorem wBigCaption_tooLong : captionTooLong (normalizeCaption (some wBigCaption)) = true := by
  have htrim : jsTrim wBigCaption = wBigCaption := jsTrim_replicate_x 2201
  have hne : wBigCaption ≠ "" := by
    intro h
    have hlen : (List.replicate 2201 'x').length = ("".data).length :=
      congrArg (fun s => s.data.length) h
    rw [List.length_replicate] at hlen
    exact absurd hlen (by decide)
  have hbeq : (wBigCaption == "") = false := beq_eq_false_iff_ne.2 hne
  have hnorm : normalizeCaption (some wBigCaption) = some wBigCaption := by
    show (if (jsTrim wBigCaption == "") = true then none else some (jsTrim wBigCaption)) =
      some wBigCaption
    rw [htrim]
    simp [hbeq]
  have hlen : wBigCaption.length = 2201 := List.length_replicate 2201 'x'
  rw [hnorm]
  show decide (MAX_CAPTION_LENGTH < wBigCaption.length) = true
  rw [hlen]
  rfl

/-- Witness for C5: a 6MB upload, a `text/plain` upload, and a 2201-character
caption each produce 400 with the fixture state unchanged. -/
theorem postsPOST_validation_400_witness :
    (MAX_FILE_SIZE < 6 * 1024 * 1024 ∧
     postsPOST wDB (some "c1") (some ⟨"a.jpg", 6 * 1024 * 1024, "image/jpeg"⟩) none
        "f.jpg" 13 20 false false false =
       (.error ⟨400, "File size exceeds 5MB limit"⟩, wDB)) ∧
    (ALLOWED_MIME_TYPES.contains "text/plain" = false ∧
     postsPOST wDB (some "c1") (some ⟨"a.txt", 10, "text/plain"⟩) none
        "f.jpg" 13 20 false false false =
       (.error ⟨400, "Invalid file type. Only JPEG, PNG, WebP, and GIF are allowed"⟩, wDB)) ∧
    (captionTooLong (normalizeCaption (some wBigCaption)) = true ∧
     postsPOST wDB (some "c1") (some wImageOk) (some wBigCaption)
        "f.jpg" 13 20 false false false =
       (.error ⟨400, "Caption exceeds 2200 characters"⟩, wDB)) :=
  ⟨⟨by decide,
    (postsPOST_validation_400 wDB "c1" ⟨"a.jpg", 6 * 1024 * 1024, "image/jpeg"⟩ none
      "f.jpg" 13 20 false false false (Or.inl (by decide))).2.1 (by decide)⟩,
   ⟨by decide,
    (postsPOST_validation_400 wDB "c1" ⟨"a.txt", 10, "text/plain"⟩ none
      "f.jpg" 13 20 false false false (Or.inr (Or.inl (by decide)))).2.2.1
      (by decide) (by decide)⟩,
   ⟨wBigCaption_tooLong,
    (postsPOST_validation_400 wDB "c1" wImageOk (some wBigCaption)
      "f.jpg" 13 20 false false false (Or.inr (Or.inr wBigCaption_tooLong))).2.2.2
      (by decide) (by decide) wBigCaption_tooLong⟩⟩

/-- C6: when the posts-row insert fails after a successful upload,
`POST /posts` returns HTTP 500 with "Failed to create post" whether or not
the compensating delete succeeds (the compensation's failure is swallowed
and not reflected in the response), no Post row exists afterwards, and the
uploaded object is removed exactly when the compensating delete succeeds
(when it fails, the object is left behind silently). -/
theorem postsPOST_insert_failure_compensated (db : DB) (cid : String) (u : UserRow)
    (img : FileUpload) (caption : Option String) (fileName : String) (newPostId now : Nat)
    (hu : findUserByClerkId db cid = some u)
    (hsize : img.size ≤ MAX_FILE_SIZE)
    (hmime : ALLOWED_MIME_TYPES.contains img.mime = true)
    (hcap : captionTooLong (normalizeCaption caption) = false)
    (hfresh : (cid ++ "/" ++ fileName) ∉ db.storage) :
    (∀ cF, (postsPOST db (some cid) (some img) caption fileName newPostId now
      false true cF).1 = .error ⟨500, "Failed to create post"⟩) ∧
    (∀ cF, (postsPOST db (some cid) (some img) caption fileName newPostId now
      false true cF).2.posts = db.posts) ∧
    (postsPOST db (some cid) (some img) caption fileName newPostId now
      false true true).2.storage = db.storage ++ [cid ++ "/" ++ fileName] ∧
    (postsPOST db (some cid) (some img) caption fileName newPostId now
      false true false).2.storage = db.storage := by
  have hmem : img.mime ∈ ALLOWED_MIME_TYPES := by simpa using hmime
  have hstepT : postsPOST db (some cid) (some img) caption fileName newPostId now
      false true true =
      (.error ⟨500, "Failed to create post"⟩,
       { db with storage := db.storage ++ [cid ++ "/" ++ fileName] }) := by
    simp [postsPOST, hu, Nat.not_lt.2 hsize, hmem, hcap]
  have hstepF : postsPOST db (some cid) (some img) caption fileName newPostId now
      false true false =
      (.error ⟨500, "Failed to create post"⟩,
       { db with storage :=
          ((db.storage ++ [cid ++ "/" ++ fileName]).filter
            (fun p => p != cid ++ "/" ++ fileName)) }) := by
    simp [postsPOST, hu, Nat.not_lt.2 hsize, hmem, hcap]
  refine ⟨?_, ?_, ?_, ?_⟩
  · intro cF
    cases cF
    · rw [hstepF]
    · rw [hstepT]
  · intro cF
    cases cF
    · rw [hstepF]
    · rw [hstepT]
  · rw [hstepT]
  · rw [hstepF]
    show (db.storage ++ [cid ++ "/" ++ fileName]).filter
      (fun p => p != cid ++ "/" ++ fileName) = db.storage
    rw [List.filter_append]
    have h1 : [cid ++ "/" ++ fileName].filter (fun p => p != cid ++ "/" ++ fileName) =
        [] := by simp
    have h2 : db.storage.filter (fun p => p != cid ++ "/" ++ fileName) = db.storage :=
      List.filter_eq_self.2 (fun a ha => bne_iff_ne.2 (fun he => hfresh (he ▸ ha)))
    rw [h1, h2, List.append_nil]

/-- Witness for C6: with the fixture database, a failing insert after a
successful upload of `"c1/f.jpg"` yields 500, leaves the posts unchanged,
keeps the object when the compensating delete fails, and removes it when
the compensating delete succeeds. -/
theorem postsPOST_insert_failure_compensated_witness :
    findUserByClerkId wDB "c1" = some wUser1 ∧
    ("c1" ++ "/" ++ "f.jpg") ∉ wDB.storage ∧
    (postsPOST wDB (some "c1") (some wImageOk) none "f.jpg" 13 20 false true true).1 =
      .error ⟨500, "Failed to create post"⟩ ∧
    (postsPOST wDB (some "c1") (some wImageOk) none "f.jpg" 13 20 false true false).1 =
      .error ⟨500, "Failed to create post"⟩ ∧
    (postsPOST wDB (some "c1") (some wImageOk) none "f.jpg" 13 20 false true true).2.posts =
      wDB.posts ∧
    (postsPOST wDB (some "c1") (some wImageOk) none "f.jpg" 13 20 false true true).2.storage =
      wDB.storage ++ ["c1" ++ "/" ++ "f.jpg"] ∧
    (postsPOST wDB (some "c1") (some wImageOk) none "f.jpg" 13 20 false true false).2.storage =
      wDB.storage :=
  ⟨rfl, by decide,
   (postsPOST_insert_failure_compensated wDB "c1" wUser1 wImageOk none "f.jpg" 13 20
     rfl (by decide) (by decide) (by decide) (by decide)).1 true,
   (postsPOST_insert_failure_compensated wDB "c1" wUser1 wImageOk none "f.jpg" 13 20
     rfl (by decide) (by decide) (by decide) (by decide)).1 false,
   (postsPOST_insert_failure_compensated wDB "c1" wUser1 wImageOk none "f.jpg" 13 20
     rfl (by decide) (by decide) (by decide) (by decide)).2.1 true,
   (postsPOST_insert_failure_compensated wDB "c1" wUser1 wImageOk none "f.jpg" 13 20
     rfl (by decide) (by decide) (by decide) (by decide)).2.2.1,
   (postsPOST_insert_failure_compensated wDB "c1" wUser1 wImageOk none "f.jpg" 13 20
     rfl (by decide) (by decide) (by decide) (by decide)).2.2.2⟩

/-- Inserting into the descending-sorted list adds exactly one element. -/
theorem length_insertByCreatedDesc (r : PostStatRow) (l : List PostStatRow) :
    (insertByCreatedDesc r l).length = l.length + 1 := by
  induction l with
  | nil => rfl
  | cons s rest ih =>
    rw [insertByCreatedDesc]
    by_cases h : s.created_at ≤ r.created_at
    · rw [if_pos h]
      simp
    · rw [if_neg h]
      simp [ih]

/-- Sorting by `created_at` descending preserves the number of rows. -/
theorem length_sortByCreatedDesc (l : List PostStatRow) :
    (sortByCreatedDesc l).length = l.length := by
  induction l with
  | nil => rfl
  | cons r rest ih =>
    rw [sortByCreatedDesc, length_insertByCreatedDesc, ih]
    simp

/-- Flattening the pages the abstract pager collects from offset `off`
onwards recovers the suffix of the id list starting at `off`, as soon as
the fuel exceeds the number of fetches the loop performs. -/
theorem collectPages_flatten (l : List Nat) (P : Nat) (hP : 1 ≤ P) :
    ∀ fuel off, (l.length - off) / P < fuel →
      (collectPages l P fuel off).flatten = l.drop off := by
  intro fuel
  induction fuel with
  | zero =>
    intro off h
    exact absurd h (Nat.not_lt_zero _)
  | succ n ih =>
    intro off h
    rw [collectPages]
    by_cases hfull : ((l.drop off).take P).length = P
    · rw [if_pos hfull, List.flatten_cons]
      have hmin : P ⊓ (l.length - off) = P := by
        have hlen := List.length_take P (l.drop off)
        rw [List.length_drop] at hlen
        rw [hlen] at hfull
        exact hfull
      have hle : P ≤ l.length - off := min_eq_left_iff.1 hmin
      have hdiv : (l.length - off) / P = (l.length - off - P) / P + 1 :=
        Nat.div_eq_sub_div (by omega) hle
      have hrec : (l.length - (off + P)) / P < n := by
        have hsub : l.length - (off + P) = l.length - off - P := by omega
        rw [hsub]
        omega
      rw [ih (off + P) hrec, ← List.drop_drop]
      exact List.take_append_drop P (l.drop off)
    · rw [if_neg hfull]
      have hlt : l.length - off < P := by
        have hlen := List.length_take P (l.drop off)
        rw [List.length_drop] at hlen
        by_contra hge
        push_neg at hge
        exact hfull (by rw [hlen]; exact Nat.min_eq_left hge)
      have htake : (l.drop off).take P = l.drop off :=
        List.take_of_length_le (by rw [List.length_drop]; omega)
      simp [htake]

/-- The number of non-empty pages the abstract pager collects from offset
`off` onwards is the ceiling of the remaining row count divided by the page
size. -/
theorem collectPages_count (l : List Nat) (P : Nat) (hP : 1 ≤ P) :
    ∀ fuel off, (l.length - off) / P < fuel →
      (collectPages l P fuel off).countP (fun pg => !pg.isEmpty) =
        (l.length - off + P - 1) / P := by
  intro fuel
  induction fuel with
  | zero =>
    intro off h
    exact absurd h (Nat.not_lt_zero _)
  | succ n ih =>
    intro off h
    rw [collectPages]
    by_cases hfull : ((l.drop off).take P).length = P
    · rw [if_pos hfull]
      have hmin : P ⊓ (l.length - off) = P := by
        have hlen := List.length_take P (l.drop off)
        rw [List.length_drop] at hlen
        rw [hlen] at hfull
        exact hfull
      have hle : P ≤ l.length - off := min_eq_left_iff.1 hmin
      have hdiv : (l.length - off) / P = (l.length - off - P) / P + 1 :=
        Nat.div_eq_sub_div (by omega) hle
      have hrec : (l.length - (off + P)) / P < n := by
        have hsub : l.length - (off + P) = l.length - off - P := by omega
        rw [hsub]
        omega
      have hne : (!(List.take P (List.drop off l)).isEmpty) = true := by
        have hnnil : List.take P (List.drop off l) ≠ [] := by
          intro hnil
          rw [hnil] at hfull
          simp at hfull
          omega
        cases hd : List.take P (List.drop off l) with
        | nil => exact absurd hd hnnil
        | cons a rest => rfl
      rw [List.countP_cons_of_pos (fun pg : List Nat => !pg.isEmpty) _ hne, ih (off + P) hrec]
      have hsub : l.length - (off + P) = l.length - off - P := by omega
      have hd1 : (l.length - off + P - 1) / P = (l.length - off + P - 1 - P) / P + 1 :=
        Nat.div_eq_sub_div (by omega) (by omega)
      have hd2 : l.length - off + P - 1 - P = l.length - off - P + P - 1 := by omega
      rw [hsub, hd1, hd2]
    · rw [if_neg hfull]
      have hlt : l.length - off < P := by
        have hlen := List.length_take P (l.drop off)
        rw [List.length_drop] at hlen
        by_contra hge
        push_neg at hge
        exact hfull (by rw [hlen]; exact Nat.min_eq_left hge)
      rcases Nat.eq_zero_or_pos (l.length - off) with hz | hpos
      · have hnil : l.drop off = [] := List.eq_nil_of_length_eq_zero
          (by rw [List.length_drop]; omega)
        rw [hnil, List.take_nil]
        have hrhs : (l.length - off + P - 1) / P = 0 :=
          Nat.div_eq_of_lt (by omega)
        rw [hrhs]
        rfl
      · have htake : (l.drop off).take P = l.drop off :=
          List.take_of_length_le (by rw [List.length_drop]; omega)
        have hne : (!(List.take P (List.drop off l)).isEmpty) = true := by
          rw [htake]
          have hnnil : l.drop off ≠ [] := by
            intro hnil2
            have h0 : (l.drop off).length = 0 := by rw [hnil2]; rfl
            rw [List.length_drop] at h0
            omega
          cases hd : List.drop off l with
          | nil => exact absurd hd hnnil
          | cons a rest => rfl
        rw [List.countP_cons_of_pos (fun pg : List Nat => !pg.isEmpty) _ hne, List.countP_nil]
        have hd1 : (l.length - off + P - 1) / P = (l.length - off + P - 1 - P) / P + 1 :=
          Nat.div_eq_sub_div (by omega) (by omega)
        have hd2 : (l.length - off + P - 1 - P) / P = 0 :=
          Nat.div_eq_of_lt (by omega)
        rw [hd1, hd2]

/-- With the requester present and the page size within the 50 cap, the
client pagination loop over `GET /posts` collects exactly the pages of the
ordered id list of the `post_stats` view. -/
theorem fetchAllPages_eq_collectPages (db : DB) (cid : String) (u : UserRow)
    (hu : findUserByClerkId db cid = some u) (P : Nat) (hP50 : P ≤ 50) :
    ∀ fuel off, fetchAllPages db cid P fuel off =
      collectPages ((listedRows db none).map PostStatRow.post_id) P fuel off := by
  intro fuel
  induction fuel with
  | zero =>
    intro off
    rfl
  | succ n ih =>
    intro off
    have heff : min P 50 = P := Nat.min_eq_left hP50
    rw [fetchAllPages, collectPages]
    simp only [postsGET, hu, Option.getD_some, heff, List.map_map, List.map_take,
      List.map_drop, List.length_map, List.length_take, List.length_drop,
      beq_iff_eq, Function.comp, ih]
    rfl

/-- C2: for N stored posts with N in `{0, 1, P, P+1, 2P}` and a page size
`1 ≤ P ≤ 50`, driving `GET /posts` by `has_more` (fetch, then continue at
`offset + P` while `has_more` is true) yields exactly `ceil(N / P)`
non-empty pages, and the concatenation of the returned ids is the full list
of the N post ids ordered by `created_at` descending — no duplicates and no
omissions (the concatenation has length N). -/
theorem pagination_exhaustive (db : DB) (cid : String) (u : UserRow) (P N : Nat)
    (hu : findUserByClerkId db cid = some u) (hP1 : 1 ≤ P) (hP50 : P ≤ 50)
    (hN : db.posts.length = N)
    (hrange : N = 0 ∨ N = 1 ∨ N = P ∨ N = P + 1 ∨ N = 2 * P) :
    (fetchAllPages db cid P (N + 1) 0).flatten =
      (listedRows db none).map PostStatRow.post_id ∧
    ((fetchAllPages db cid P (N + 1) 0).flatten).length = N ∧
    (fetchAllPages db cid P (N + 1) 0).countP (fun pg => !pg.isEmpty) =
      (N + P - 1) / P := by
  have hlen : ((listedRows db none).map PostStatRow.post_id).length = N := by
    rw [List.length_map]
    show (sortByCreatedDesc (postStatsView db)).length = N
    rw [length_sortByCreatedDesc, postStatsView, List.length_map, hN]
  have hfuel : (((listedRows db none).map PostStatRow.post_id).length - 0) / P < N + 1 := by
    rw [hlen, Nat.sub_zero]
    have hds := Nat.div_le_self N P
    omega
  rw [fetchAllPages_eq_collectPages db cid u hu P hP50]
  refine ⟨?_, ?_, ?_⟩
  · rw [collectPages_flatten _ P hP1 _ 0 hfuel, List.drop_zero]
  · rw [collectPages_flatten _ P hP1 _ 0 hfuel, List.drop_zero, hlen]
  · rw [collectPages_count _ P hP1 _ 0 hfuel, hlen, Nat.sub_zero]

/-- Witness for C2 at page size 2 over the three fixture posts (N = P + 1):
two non-empty pages, ids `[12, 10]` then `[11]`, concatenating to the full
descending-by-time id list. -/
theorem pagination_exhaustive_witness :
    findUserByClerkId wDB "c1" = some wUser1 ∧ wDB.posts.length = 3 ∧
    (3 = 0 ∨ 3 = 1 ∨ 3 = 2 ∨ 3 = 2 + 1 ∨ 3 = 2 * 2) ∧
    (fetchAllPages wDB "c1" 2 (3 + 1) 0).flatten =
      (listedRows wDB none).map PostStatRow.post_id ∧
    ((fetchAllPages wDB "c1" 2 (3 + 1) 0).flatten).length = 3 ∧
    (fetchAllPages wDB "c1" 2 (3 + 1) 0).countP (fun pg => !pg.isEmpty) =
      (3 + 2 - 1) / 2 :=
  ⟨rfl, rfl, Or.inr (Or.inr (Or.inr (Or.inl rfl))),
   (pagination_exhaustive wDB "c1" wUser1 2 3 rfl (by decide) (by decide) rfl
     (Or.inr (Or.inr (Or.inr (Or.inl rfl))))).1,
   (pagination_exhaustive wDB "c1" wUser1 2 3 rfl (by decide) (by decide) rfl
     (Or.inr (Or.inr (Or.inr (Or.inl rfl))))).2.1,
   (pagination_exhaustive wDB "c1" wUser1 2 3 rfl (by decide) (by decide) rfl
     (Or.inr (Or.inr (Or.inr (Or.inl rfl))))).2.2⟩

/-- C3: for every authenticated `GET /posts` request whose requester exists,
the request succeeds; the effective page size is the requested limit capped
at 50 (default 10) and the offset defaults to 0; the returned page has
`min(limit, resultSetSize - offset)` posts; `has_more` is true iff the page
is exactly full (iff the result set extends at least `limit` rows past the
offset); and `next_offset` is present — equal to `offset + limit` — exactly
when `has_more` is true. -/
theorem postsGET_pagination_shape (db : DB) (cid : String) (u : UserRow)
    (limitParam offsetParam userIdParam : Option Nat)
    (hu : findUserByClerkId db cid = some u) :
    (∃ r, postsGET db (some cid) limitParam offsetParam userIdParam = .ok r) ∧
    (∀ r, postsGET db (some cid) limitParam offsetParam userIdParam = .ok r →
      r.data.length = min (min (limitParam.getD 10) 50)
        ((listedRows db userIdParam).length - offsetParam.getD 0) ∧
      (r.has_more = true ↔ r.data.length = min (limitParam.getD 10) 50) ∧
      (r.has_more = true ↔ min (limitParam.getD 10) 50 ≤
        (listedRows db userIdParam).length - offsetParam.getD 0) ∧
      (r.has_more = true →
        r.next_offset = some (offsetParam.getD 0 + min (limitParam.getD 10) 50)) ∧
      (r.has_more = false → r.next_offset = none)) := by
  constructor
  · rcases hres : postsGET db (some cid) limitParam offsetParam userIdParam with e | r
    · exact absurd hres (by simp [postsGET, hu])
    · exact ⟨r, rfl⟩
  · intro r h
    simp only [postsGET, hu] at h
    rw [Except.ok.injEq] at h
    subst h
    refine ⟨?_, ?_, ?_, ?_, ?_⟩
    · simp [List.length_take, List.length_drop, List.length_map, Nat.min_assoc]
    · simp [beq_iff_eq, List.length_take, List.length_drop, List.length_map]
    · simp only [beq_iff_eq, List.length_take, List.length_drop, List.length_map]
      exact min_eq_left_iff
    · intro hm
      replace hm := beq_iff_eq.1 hm
      simp only [List.length_map, List.length_take, List.length_drop] at hm
      rw [min_assoc] at hm
      simp [hm]
    · intro hm
      have hne := beq_eq_false_iff_ne.1 hm
      simp only [List.length_map, List.length_take, List.length_drop] at hne
      rw [min_assoc] at hne
      simp [hne]

/-- Witness for C3: requesting a page of 2 over the three fixture posts
returns 2 posts, `has_more` true (2 ≤ 3 - 0), and `next_offset = 0 + 2`. -/
theorem postsGET_pagination_shape_witness :
    findUserByClerkId wDB "c1" = some wUser1 ∧
    postsGET wDB (some "c1") (some 2) none none = .ok wListResp2 ∧
    wListResp2.data.length = min (min 2 50) ((listedRows wDB none).length - 0) ∧
    (wListResp2.has_more = true ↔
      min 2 50 ≤ (listedRows wDB none).length - 0) ∧
    wListResp2.next_offset = some (0 + min 2 50) :=
  ⟨rfl, rfl,
   ((postsGET_pagination_shape wDB "c1" wUser1 (some 2) none none rfl).2
     wListResp2 rfl).1,
   ((postsGET_pagination_shape wDB "c1" wUser1 (some 2) none none rfl).2
     wListResp2 rfl).2.2.1,
   ((postsGET_pagination_shape wDB "c1" wUser1 (some 2) none none rfl).2
     wListResp2 rfl).2.2.2.1 rfl⟩
